import Mathlib

/-!
Verification of the Telegram diary bot (`bot.py`).

This file shallowly embeds the data model and the operations of `bot.py`:
the per-chat record, the Python `datetime.strptime(s, "%H:%M")` time
parser, the line-by-line schedule parser of `handle_message`'s
`schedule` branch, the reminder-delay computation of `schedule_task`,
the 4096-character chunking of `send_long_message`, the Gemini wrapper
`generate_message`, and the JSON persistence of `save_data`/`load_data`.

Conventions of the embedding:
* Python `None` is `Option.none`; the `mode` field is `Option String`.
* A Python `dict` is an insertion-ordered association list; assigning to
  an existing key keeps its position, a new key is appended (CPython
  semantics).
* Wall-clock "now" is the number of seconds since today's midnight
  (`datetime.now()` at second granularity; `schedule_task` zeroes the
  seconds of the scheduled moment before comparing).
* Effects are made explicit: a run of a handler returns the persisted
  store, the list of `(chat_id, text)` transport sends in order, and the
  list of `(chat_id, task, delay-in-seconds)` reminder timers scheduled.
-/

/-- A diary entry as built at `bot.py:115` / `bot.py:137`:
the Python dict `{"type": ..., "text": ...}`. -/
structure DiaryEntry where
  type : String
  text : String
deriving DecidableEq

/-- The per-chat record created at `bot.py:110`:
`{"diary": [], "mode": None, "tasks": []}`.  In memory a task is the
pair `(time_part, task_part)` from `bot.py:127`. -/
structure ChatRecord where
  diary : List DiaryEntry
  mode : Option String
  tasks : List (String × String)
deriving DecidableEq

/-- The persisted mapping from chat id (a string, `bot.py:105`) to its
record: a Python dict, i.e. an insertion-ordered association list. -/
abbrev Store := List (String × ChatRecord)

/-- Python `chat_id in data` / `data[chat_id]`: first binding of the key. -/
def storeGet : Store → String → Option ChatRecord
  | [], _ => none
  | (k, v) :: rest, key => if k = key then some v else storeGet rest key

/-- Python `data[chat_id] = r`: overwrite in place if the key exists
(keeping its position), otherwise append. -/
def storeSet : Store → String → ChatRecord → Store
  | [], key, v => [(key, v)]
  | (k, w) :: rest, key, v =>
    if k = key then (key, v) :: rest else (k, w) :: storeSet rest key v

/-- The defaults of `bot.py:110`. -/
def newRecord : ChatRecord := ⟨[], none, []⟩

/-- Numeric value of an ASCII digit character. -/
def digitVal (c : Char) : Nat := c.toNat - 48

/-- The alternatives of CPython `_strptime`'s regex fragment for `%H`,
`2[0-3]|[0-1]\d|\d`, in regex (leftmost-first, backtracking) order: each
alternative is returned as (hour value, unconsumed input). -/
def hourAlts : List Char → List (Nat × List Char)
  | [] => []
  | [c1] => if c1.isDigit then [(digitVal c1, [])] else []
  | c1 :: c2 :: rest =>
    (if c1 = '2' ∧ (c2 = '0' ∨ c2 = '1' ∨ c2 = '2' ∨ c2 = '3')
     then [(20 + digitVal c2, rest)] else []) ++
    (if (c1 = '0' ∨ c1 = '1') ∧ c2.isDigit
     then [(10 * digitVal c1 + digitVal c2, rest)] else []) ++
    (if c1.isDigit then [(digitVal c1, c2 :: rest)] else [])

/-- The alternatives of the `%M` regex fragment `[0-5]\d|\d`, in regex
order. -/
def minuteAlts : List Char → List (Nat × List Char)
  | [] => []
  | [c1] => if c1.isDigit then [(digitVal c1, [])] else []
  | c1 :: c2 :: rest =>
    (if (c1 = '0' ∨ c1 = '1' ∨ c1 = '2' ∨ c1 = '3' ∨ c1 = '4' ∨ c1 = '5')
        ∧ c2.isDigit
     then [(10 * digitVal c1 + digitVal c2, rest)] else []) ++
    (if c1.isDigit then [(digitVal c1, c2 :: rest)] else [])

/-- Given an hour alternative, the minute parses that complete a full
match of `%H:%M` against the whole input (the literal `:` then `%M`,
then end of string, as `_strptime` rejects unconverted trailing data). -/
def finishHM : Nat × List Char → List (Nat × Nat)
  | (h, ':' :: rest) =>
    (minuteAlts rest).filterMap fun p =>
      if p.2 = [] then some (h, p.1) else none
  | _ => []

/-- Python `datetime.strptime(s, "%H:%M")` (`bot.py:61` and `bot.py:126`):
the first full regex match in backtracking order, as (hour, minute);
`none` models the `ValueError` raised when nothing matches. -/
def parseHM (s : String) : Option (Nat × Nat) :=
  ((hourAlts s.toList).flatMap finishHM).head?

/-- Python `line.split(" ", 1)` restricted to the two-element result the
schedule branch unpacks (`bot.py:125`): split at the first space;
`none` models the `ValueError` when the line holds no space. -/
def splitFirstSpace : List Char → Option (List Char × List Char)
  | [] => none
  | c :: rest =>
    if c = ' ' then some ([], rest)
    else (splitFirstSpace rest).map fun p => (c :: p.1, p.2)

/-- One schedule line as processed at `bot.py:125`-`bot.py:126`: split at
the first space, then validate the time token with `strptime`; returns
`(time_part, task_part, hour, minute)`, or `none` for the `ValueError`
of either step. -/
def parseLine (line : String) : Option (String × String × Nat × Nat) :=
  match splitFirstSpace line.toList with
  | none => none
  | some (tp, rest) =>
    match parseHM (String.mk tp) with
    | none => none
    | some (h, m) => some (String.mk tp, String.mk rest, h, m)

/-- Python `str.strip()` (`bot.py:121`, and `.strip()` at `bot.py:45`):
drop whitespace from both ends. -/
def pyStrip (s : String) : String :=
  String.mk
    (((s.toList.dropWhile Char.isWhitespace).reverse.dropWhile
        Char.isWhitespace).reverse)

/-- Helper for `pySplitNl`: accumulate the current field (reversed). -/
def splitNlAux : List Char → List Char → List (List Char)
  | [], acc => [acc.reverse]
  | c :: rest, acc =>
    if c = '\n' then acc.reverse :: splitNlAux rest []
    else splitNlAux rest (c :: acc)

/-- Python `text.split("\n")` (`bot.py:121`): split on every newline;
the empty string yields `[""]`. -/
def pySplitNl (s : String) : List String :=
  (splitNlAux s.toList []).map String.mk

/-- The delay computed by `schedule_task` (`bot.py:61`-`bot.py:67`):
`strptime` minus ten minutes keeps only a clock time, so the scheduled
moment is today at `(60*h + m - 10) mod 1440` minutes (seconds zeroed),
pushed to the same clock time tomorrow when strictly earlier than `now`
(`now` in seconds since midnight); the delay is the difference in
seconds. -/
def scheduleDelay (now h m : Nat) : Nat :=
  let lead := (60 * h + m + 1430) % 1440
  let sched := lead * 60
  if sched < now then sched + 86400 - now else sched - now

/-- `schedule_task` (`bot.py:59`-`bot.py:70`): re-parses the time string
and registers one delayed reminder `(chat_id, task, delay)`; any
exception is caught and logged, so a parse failure registers nothing. -/
def schedule_task (now : Nat) (chat_id time_str task : String) :
    Option (String × String × Nat) :=
  match parseHM time_str with
  | none => none
  | some (h, m) => some (chat_id, task, scheduleDelay now h m)

/-- `delayed_send_reminder` (`bot.py:51`-`bot.py:56`): after the delay,
one single message is sent to the chat. -/
def delayed_send_reminder (chat_id task : String) : String × String :=
  (chat_id, "⏰ Через 10 минут: " ++ task)

/-- The fixed fallback of `generate_message` (`bot.py:48`). -/
def genFallback : String := "Сейчас не могу ответить."

/-- `generate_message` (`bot.py:42`-`bot.py:48`).  The underlying Gemini
call is the oracle `gen`; `gen prompt = some t` models a response whose
`.text` is `t`, `gen prompt = none` models any exception raised inside
the `try` block.  On success the code returns `response.text.strip()`;
on failure the exception is caught and the fixed fallback returned, so
the wrapper is total (never raises to its caller). -/
def generate_message (gen : String → Option String) (prompt : String) :
    String :=
  match gen prompt with
  | some t => pyStrip t
  | none => genFallback

/-- The chunking of `send_long_message` (`bot.py:73`-`bot.py:76`):
`text[i:i+4096]` for `i = 0, 4096, 8192, ...`, i.e. successive slices of
at most 4096 characters; the empty text produces no send at all. -/
def chunksList (l : List Char) : List (List Char) :=
  if h : l = [] then []
  else l.take 4096 :: chunksList (l.drop 4096)
termination_by l.length
decreasing_by
  have hpos : 0 < l.length := List.length_pos.mpr h
  simp only [List.length_drop]
  omega

/-- `send_long_message` (`bot.py:73`-`bot.py:76`): the in-order transport
sends `(chat_id, chunk)` produced for a text. -/
def send_long_message (chat_id text : String) : List (String × String) :=
  (chunksList text.toList).map fun c => (chat_id, String.mk c)

/-- Result of one run of a handler: the store as persisted on disk when
the handler returns (the original store when the handler returns before
`save_data`), the transport sends in order, and the reminder timers
registered. -/
structure HMResult where
  store : Store
  sent : List (String × String)
  timers : List (String × String × Nat)
deriving DecidableEq

/-- The loop of the `schedule` branch (`bot.py:122`-`bot.py:131`):
process the lines in order, accumulating the `(time_part, task_part)`
pairs and the timers registered by `schedule_task`; the first line whose
unpacking or `strptime` raises `ValueError` aborts the loop, keeping the
timers already registered for the earlier lines. -/
def processLines (now : Nat) (chat_id : String) :
    List String → List (String × String) → List (String × String × Nat) →
      Sum (List (String × String) × List (String × String × Nat))
        (String × List (String × String × Nat))
  | [], tasks, timers => Sum.inl (tasks, timers)
  | line :: rest, tasks, timers =>
    match parseLine line with
    | none => Sum.inr (line, timers)
    | some (tp, tk, h, m) =>
      processLines now chat_id rest (tasks ++ [(tp, tk)])
        (timers ++ (schedule_task now chat_id tp tk).toList)

/-- `handle_message` (`bot.py:104`-`bot.py:147`).  `gen` is the Gemini
oracle, `now` the wall clock in seconds since midnight, `store` the
content of `data.json` read by `load_data`, `chat_id` and `text` the
inbound message.  Returns the persisted store (the malformed-schedule
branch returns at `bot.py:131` before `save_data`, so there the file
keeps the original store), the sends, and the registered timers. -/
def handle_message (gen : String → Option String) (now : Nat)
    (store : Store) (chat_id text : String) : HMResult :=
  let data :=
    if (storeGet store chat_id).isSome then store
    else storeSet store chat_id newRecord
  let r := (storeGet data chat_id).getD newRecord
  if r.mode = some "plan" then
    let ai_reply := generate_message gen
      ("Вот план школьника: " ++ text ++ "\nДай советы и добавь недостающие пункты.")
    ⟨storeSet data chat_id ⟨r.diary ++ [⟨"планы", text⟩], some "schedule", r.tasks⟩,
     send_long_message chat_id
       ("✅ План записан и дополнен ИИ:\n\n" ++ ai_reply ++
        "\n\nТеперь напиши каждое задание с указанием времени. Например:\n\n8:00 Математика\n9:30 Прогулка\n..."),
     []⟩
  else if r.mode = some "schedule" then
    match processLines now chat_id (pySplitNl (pyStrip text)) [] [] with
    | Sum.inr (line, timers) =>
      ⟨store,
       [(chat_id, "⚠️ Неверный формат строки: '" ++ line ++ "'. Используй формат 'HH:MM Задание'")],
       timers⟩
    | Sum.inl (tasks, timers) =>
      ⟨storeSet data chat_id ⟨r.diary, none, tasks⟩,
       [(chat_id, "✅ Задания с временем записаны. Буду напоминать за 10 минут до начала!")],
       timers⟩
  else if r.mode = some "reflect" then
    let reply := generate_message gen
      ("Вот дневниковая запись школьника: '" ++ text ++ "'. Ответь поддержкой или советом.")
    ⟨storeSet data chat_id ⟨r.diary ++ [⟨"рефлексия", text⟩], none, r.tasks⟩,
     send_long_message chat_id ("💬 " ++ reply), []⟩
  else
    let response := generate_message gen ("Пользователь пишет: " ++ text)
    ⟨data, send_long_message chat_id response, []⟩

/-- Modelled from the spec: the `/start` command handler is part of this
repository but not among the provided source files (only `handle_message`
is in `src/bot.py`); per the spec it "idempotently ensures a ChatRecord
exists (creating with defaults if absent) and sends a fixed greeting;
does not alter an existing record's mode".  The greeting text is not
given by the spec and is not part of the persisted state; the returned
store is the one persisted. -/
def start_command (store : Store) (chat_id : String) : Store :=
  if (storeGet store chat_id).isSome then store
  else storeSet store chat_id newRecord

/-- A Python value of the shapes the program keeps in `data`: `None`,
strings, lists, tuples (the task pairs of `bot.py:127`), and
string-keyed dicts. -/
inductive PyVal where
  | pynone : PyVal
  | pystr : String → PyVal
  | pylist : List PyVal → PyVal
  | pytuple : List PyVal → PyVal
  | pydict : List (String × PyVal) → PyVal

/-- A JSON value of the shapes `json.dump` writes for such data:
`null`, strings, arrays, objects. -/
inductive JVal where
  | jnull : JVal
  | jstr : String → JVal
  | jarr : List JVal → JVal
  | jobj : List (String × JVal) → JVal

mutual

/-- `save_data` / `json.dump` (`bot.py:37`-`bot.py:39`) seen as the
JSON value written: `None` becomes `null`, and both lists and tuples
become JSON arrays. -/
def save_data : PyVal → JVal
  | .pynone => .jnull
  | .pystr s => .jstr s
  | .pylist l => .jarr (saveList l)
  | .pytuple l => .jarr (saveList l)
  | .pydict l => .jobj (saveObj l)

def saveList : List PyVal → List JVal
  | [] => []
  | v :: vs => save_data v :: saveList vs

def saveObj : List (String × PyVal) → List (String × JVal)
  | [] => []
  | (k, v) :: vs => (k, save_data v) :: saveObj vs

end

mutual

/-- `load_data` / `json.load` (`bot.py:30`-`bot.py:35`) seen as the
Python value a JSON value parses back to: arrays always come back as
lists, never tuples. -/
def load_data : JVal → PyVal
  | .jnull => .pynone
  | .jstr s => .pystr s
  | .jarr l => .pylist (loadList l)
  | .jobj l => .pydict (loadObj l)

def loadList : List JVal → List PyVal
  | [] => []
  | v :: vs => load_data v :: loadList vs

def loadObj : List (String × JVal) → List (String × PyVal)
  | [] => []
  | (k, v) :: vs => (k, load_data v) :: loadObj vs

end

mutual

/-- `true` when a Python value holds no tuple anywhere. -/
def tupleFree : PyVal → Bool
  | .pynone => true
  | .pystr _ => true
  | .pylist l => tupleFreeList l
  | .pytuple _ => false
  | .pydict l => tupleFreeObj l

def tupleFreeList : List PyVal → Bool
  | [] => true
  | v :: vs => tupleFree v && tupleFreeList vs

def tupleFreeObj : List (String × PyVal) → Bool
  | [] => true
  | (_, v) :: vs => tupleFree v && tupleFreeObj vs

end

/-- The in-memory Python form of one diary entry (`bot.py:115`,
`bot.py:137`): the dict `{"type": ..., "text": ...}`. -/
def entryToPy (e : DiaryEntry) : PyVal :=
  .pydict [("type", .pystr e.type), ("text", .pystr e.text)]

/-- The in-memory Python form of `mode`. -/
def modeToPy : Option String → PyVal
  | none => .pynone
  | some s => .pystr s

/-- The in-memory Python form of one task pair right after the schedule
branch: `bot.py:127` appends the tuple `(time_part, task_part)`. -/
def taskToPy (t : String × String) : PyVal :=
  .pytuple [.pystr t.1, .pystr t.2]

/-- The in-memory Python form of a chat record whose `tasks` were set by
the schedule branch (field order as created at `bot.py:110`). -/
def recordToPy (r : ChatRecord) : PyVal :=
  .pydict [("diary", .pylist (r.diary.map entryToPy)),
           ("mode", modeToPy r.mode),
           ("tasks", .pylist (r.tasks.map taskToPy))]

/-- The in-memory Python form of the whole mapping passed to `save_data`
at `bot.py:147` right after a successful schedule submission: task pairs
are tuples. -/
def storeToPy (s : Store) : PyVal :=
  .pydict (s.map fun p => (p.1, recordToPy p.2))

/-- First binding after `storeSet` at the written key. -/
theorem storeGet_storeSet_self : ∀ (s : Store) (k : String) (v : ChatRecord),
    storeGet (storeSet s k v) k = some v
  | [], k, v => by simp [storeSet, storeGet]
  | (a, b) :: rest, k, v => by
    by_cases h : a = k
    · simp [storeSet, storeGet, h]
    · simp [storeSet, storeGet, h, storeGet_storeSet_self rest k v]

/-- Number of bindings of a key in a store (a Python dict always has
zero or one). -/
def keyCount : Store → String → Nat
  | [], _ => 0
  | (k, _) :: rest, key => (if k = key then 1 else 0) + keyCount rest key

/-- An absent key has no binding. -/
theorem keyCount_of_storeGet_none : ∀ (s : Store) (k : String),
    storeGet s k = none → keyCount s k = 0
  | [], _, _ => rfl
  | (a, b) :: rest, k, h => by
    by_cases hak : a = k
    · simp [storeGet, hak] at h
    · have h2 : storeGet rest k = none := by simpa [storeGet, hak] using h
      simp [keyCount, hak, keyCount_of_storeGet_none rest k h2]

/-- A present key has at least one binding. -/
theorem keyCount_of_storeGet_some : ∀ (s : Store) (k : String) (v : ChatRecord),
    storeGet s k = some v → 1 ≤ keyCount s k
  | [], k, v, h => by simp [storeGet] at h
  | (a, b) :: rest, k, v, h => by
    by_cases hak : a = k
    · simp [keyCount, hak]
    · have h2 : storeGet rest k = some v := by simpa [storeGet, hak] using h
      have := keyCount_of_storeGet_some rest k v h2
      simp [keyCount, hak]
      omega

/-- `storeSet` leaves exactly one binding of the written key when the
store had at most one. -/
theorem keyCount_storeSet : ∀ (s : Store) (k : String) (v : ChatRecord),
    keyCount (storeSet s k v) k = max (keyCount s k) 1
  | [], k, v => by simp [storeSet, keyCount]
  | (a, b) :: rest, k, v => by
    by_cases h : a = k
    · simp [storeSet, keyCount, h]
    · simp [storeSet, keyCount, h, keyCount_storeSet rest k v]

/-- Parse a whole submission: `some` of the per-line results when every
line is well formed, `none` as soon as one line is malformed. -/
def parseAll : List String → Option (List (String × String × Nat × Nat))
  | [] => some []
  | line :: rest =>
    match parseLine line, parseAll rest with
    | some q, some qs => some (q :: qs)
    | _, _ => none

/-- The task pair stored for one parsed line (`bot.py:127`). -/
def taskOf (q : String × String × Nat × Nat) : String × String :=
  (q.1, q.2.1)

/-- The timer registered for one parsed line (`bot.py:128`). -/
def timerOf (now : Nat) (chat_id : String) (q : String × String × Nat × Nat) :
    String × String × Nat :=
  (chat_id, q.2.1, scheduleDelay now q.2.2.1 q.2.2.2)

/-- A successfully parsed line's time token re-parses to the same
hour and minute (`schedule_task` re-runs `strptime`). -/
theorem parseLine_parseHM (line tp tk : String) (h m : Nat)
    (hp : parseLine line = some (tp, tk, h, m)) : parseHM tp = some (h, m) := by
  unfold parseLine at hp
  split at hp
  · cases hp
  · next a b hs =>
    split at hp
    · cases hp
    · next h2 m2 hm2 =>
      simp only [Option.some.injEq, Prod.mk.injEq] at hp
      obtain ⟨rfl, rfl, rfl, rfl⟩ := hp
      exact hm2

/-- When every line parses, the schedule loop completes, appending one
task pair and one timer per line, in input order. -/
theorem processLines_ok (now : Nat) (chat_id : String) :
    ∀ (lines : List String) (parsed : List (String × String × Nat × Nat))
      (tasks : List (String × String)) (timers : List (String × String × Nat)),
    parseAll lines = some parsed →
    processLines now chat_id lines tasks timers =
      Sum.inl (tasks ++ parsed.map taskOf,
               timers ++ parsed.map (timerOf now chat_id))
  | [], parsed, tasks, timers, hp => by
    simp only [parseAll, Option.some.injEq] at hp
    subst hp
    simp [processLines]
  | line :: rest, parsed, tasks, timers, hp => by
    rcases hl : parseLine line with _ | ⟨tp, tk, h, m⟩
    · simp only [parseAll, hl] at hp
      exact Option.noConfusion hp
    · simp only [parseAll, hl] at hp
      rcases hr : parseAll rest with _ | qs
      · simp only [hr] at hp
        exact Option.noConfusion hp
      · simp only [hr, Option.some.injEq] at hp
        subst hp
        have hst : schedule_task now chat_id tp tk =
            some (chat_id, tk, scheduleDelay now h m) := by
          unfold schedule_task
          rw [parseLine_parseHM line tp tk h m hl]
        simp only [processLines, hl, hst, Option.toList_some]
        rw [processLines_ok now chat_id rest qs (tasks ++ [(tp, tk)])
          (timers ++ [(chat_id, tk, scheduleDelay now h m)]) hr]
        simp [taskOf, timerOf]

/-- When line `k` is the first malformed line, the schedule loop stops
there, but the timers of the earlier lines have already been
registered. -/
theorem processLines_err (now : Nat) (chat_id : String) :
    ∀ (good : List String) (g : List (String × String × Nat × Nat))
      (bad : String) (rest : List String)
      (tasks : List (String × String)) (timers : List (String × String × Nat)),
    parseAll good = some g → parseLine bad = none →
    processLines now chat_id (good ++ bad :: rest) tasks timers =
      Sum.inr (bad, timers ++ g.map (timerOf now chat_id))
  | [], g, bad, rest, tasks, timers, hg, hb => by
    simp only [parseAll, Option.some.injEq] at hg
    subst hg
    simp [processLines, hb]
  | line :: good, g, bad, rest, tasks, timers, hg, hb => by
    rcases hl : parseLine line with _ | ⟨tp, tk, h, m⟩
    · simp only [parseAll, hl] at hg
      exact Option.noConfusion hg
    · simp only [parseAll, hl] at hg
      rcases hr : parseAll good with _ | qs
      · simp only [hr] at hg
        exact Option.noConfusion hg
      · simp only [hr, Option.some.injEq] at hg
        subst hg
        have hst : schedule_task now chat_id tp tk =
            some (chat_id, tk, scheduleDelay now h m) := by
          unfold schedule_task
          rw [parseLine_parseHM line tp tk h m hl]
        simp only [List.cons_append, processLines, hl, hst, Option.toList_some,
          List.append_eq]
        rw [processLines_err now chat_id good qs bad rest (tasks ++ [(tp, tk)])
          (timers ++ [(chat_id, tk, scheduleDelay now h m)]) hr hb]
        simp [timerOf]

/-- Concatenating the chunks restores the original character list. -/
theorem chunksList_foldr (l : List Char) :
    (chunksList l).foldr (fun a b => a ++ b) [] = l := by
  unfold chunksList
  by_cases h : l = []
  · simp [h]
  · simp only [dif_neg h, List.foldr_cons]
    rw [chunksList_foldr (l.drop 4096)]
    exact List.take_append_drop 4096 l
termination_by l.length
decreasing_by
  have hpos : 0 < l.length := List.length_pos.mpr h
  simp only [List.length_drop]
  omega

/-- Every chunk has at most 4096 characters. -/
theorem chunksList_le (l : List Char) : ∀ c ∈ chunksList l, c.length ≤ 4096 := by
  unfold chunksList
  by_cases h : l = []
  · simp [h]
  · simp only [dif_neg h, List.mem_cons]
    rintro c (rfl | hc)
    · simp [List.length_take]
    · exact chunksList_le (l.drop 4096) c hc
termination_by l.length
decreasing_by
  have hpos : 0 < l.length := List.length_pos.mpr h
  simp only [List.length_drop]
  omega

/-- A nonempty text produces at least one chunk. -/
theorem chunksList_ne_nil (l : List Char) (h : l ≠ []) : chunksList l ≠ [] := by
  unfold chunksList
  simp [dif_neg h]

/-- A text longer than 4096 characters produces at least two chunks. -/
theorem chunksList_two (l : List Char) (h : 4096 < l.length) :
    2 ≤ (chunksList l).length := by
  have h1 : l ≠ [] := by
    intro he
    subst he
    simp at h
  have h2 : l.drop 4096 ≠ [] := by
    intro he
    have := congrArg List.length he
    simp only [List.length_drop, List.length_nil] at this
    omega
  rw [chunksList.eq_def]
  simp only [dif_neg h1, List.length_cons]
  have h3 := chunksList_ne_nil (l.drop 4096) h2
  have h4 : 0 < (chunksList (l.drop 4096)).length := List.length_pos.mpr h3
  omega

mutual

/-- A tuple-free Python value JSON-round-trips to itself. -/
theorem load_save_tupleFree : (x : PyVal) → tupleFree x = true →
    load_data (save_data x) = x
  | .pynone, _ => rfl
  | .pystr s, _ => rfl
  | .pylist l, h => by
    simp only [tupleFree] at h
    simp only [save_data, load_data]
    rw [loadList_saveList l h]
  | .pytuple l, h => by simp [tupleFree] at h
  | .pydict l, h => by
    simp only [tupleFree] at h
    simp only [save_data, load_data]
    rw [loadObj_saveObj l h]

theorem loadList_saveList : (l : List PyVal) → tupleFreeList l = true →
    loadList (saveList l) = l
  | [], _ => rfl
  | v :: vs, h => by
    simp only [tupleFreeList, Bool.and_eq_true] at h
    simp only [saveList, loadList]
    rw [load_save_tupleFree v h.1, loadList_saveList vs h.2]

theorem loadObj_saveObj : (l : List (String × PyVal)) → tupleFreeObj l = true →
    loadObj (saveObj l) = l
  | [], _ => rfl
  | (k, v) :: vs, h => by
    simp only [tupleFreeObj, Bool.and_eq_true] at h
    simp only [saveObj, loadObj]
    rw [load_save_tupleFree v h.1, loadObj_saveObj vs h.2]

end

/-- A Gemini oracle that always fails (the generator is irrelevant in
the `schedule` branch). -/
def genNone : String → Option String := fun _ => none

/-- A chat already in `schedule` mode with a previously stored task. -/
def exampleStore : Store := [("42", ⟨[], some "schedule", [("7:00", "Old")]⟩)]

/-- C1 counterexample: in `schedule` mode, the input
`"8:00 Math\n9:30 Walk"` stores the time tokens verbatim, so `tasks`
is `[("8:00", "Math"), ("9:30", "Walk")]` and not the zero-padded
`[("08:00", "Math"), ("09:30", "Walk")]` the claim names. -/
theorem c1_counterexample :
    (storeGet (handle_message genNone 0 exampleStore "42"
        "8:00 Math\n9:30 Walk").store "42").map ChatRecord.tasks =
      some [("8:00", "Math"), ("9:30", "Walk")] ∧
    some [("8:00", "Math"), ("9:30", "Walk")] ≠
      (some [("08:00", "Math"), ("09:30", "Walk")] :
        Option (List (String × String))) := by
  decide

/-- C1 (amended): for every inbound text in schedule mode all of whose
lines are valid `HH:MM description` entries, the stored `tasks` is the
ordered list of (time, description) pairs, one per input line in input
order, with the time token stored verbatim as typed (not zero-padded);
`mode` becomes `none`, one timer is registered per line, and the
confirmation is sent.  In particular `"8:00 Math\n9:30 Walk"` yields
`tasks = [("8:00", "Math"), ("9:30", "Walk")]`. -/
theorem c1_schedule_success (gen : String → Option String) (now : Nat)
    (store : Store) (chat_id text : String) (r : ChatRecord)
    (parsed : List (String × String × Nat × Nat))
    (hget : storeGet store chat_id = some r)
    (hmode : r.mode = some "schedule")
    (hparse : parseAll (pySplitNl (pyStrip text)) = some parsed) :
    storeGet (handle_message gen now store chat_id text).store chat_id =
      some ⟨r.diary, none, parsed.map taskOf⟩ ∧
    (handle_message gen now store chat_id text).timers =
      parsed.map (timerOf now chat_id) ∧
    (handle_message gen now store chat_id text).sent =
      [(chat_id, "✅ Задания с временем записаны. Буду напоминать за 10 минут до начала!")] := by
  unfold handle_message
  simp only [hget, Option.isSome_some, if_true, Option.getD_some, hmode]
  rw [processLines_ok now chat_id (pySplitNl (pyStrip text)) parsed [] [] hparse]
  simp [storeGet_storeSet_self]

/-- C2 (confirmed): for every inbound text in schedule mode whose line
`k` is the first malformed one, the single reply is the error message
embedding line `k`'s exact text, the remaining lines are not processed
(only the earlier lines' timers exist), and the handler returns before
`save_data`, so the persisted store — in particular the chat's `mode`
(still `schedule`) and `tasks` — is unchanged. -/
theorem c2_schedule_malformed (gen : String → Option String) (now : Nat)
    (store : Store) (chat_id text : String) (r : ChatRecord)
    (good : List String) (bad : String) (rest : List String)
    (g : List (String × String × Nat × Nat))
    (hget : storeGet store chat_id = some r)
    (hmode : r.mode = some "schedule")
    (hsplit : pySplitNl (pyStrip text) = good ++ bad :: rest)
    (hgood : parseAll good = some g)
    (hbad : parseLine bad = none) :
    (handle_message gen now store chat_id text).store = store ∧
    (handle_message gen now store chat_id text).sent =
      [(chat_id, "⚠️ Неверный формат строки: '" ++ bad ++
        "'. Используй формат 'HH:MM Задание'")] ∧
    (handle_message gen now store chat_id text).timers =
      g.map (timerOf now chat_id) := by
  unfold handle_message
  simp only [hget, Option.isSome_some, if_true, Option.getD_some, hmode, hsplit]
  rw [processLines_err now chat_id good g bad rest [] [] hgood hbad]
  simp

/-- C3 (confirmed): for a task scheduled at a valid target time `h:m`
(with `h:m` at least `00:10`, so that the ten-minute lead stays within
today's clock), `schedule_task` registers one timer whose fire moment
`now + delay` is today's second `(60*h + m - 10) * 60` — the target
time minus the ten-minute lead, seconds zeroed — or, when that moment
is already strictly past `now`, the same clock second of the next day;
and the reminder that fires sends exactly one notification
`⏰ Через 10 минут: {task}` to the chat. -/
theorem c3_reminder_fire_time (now h m : Nat) (chat_id time_str task : String)
    (hnow : now < 86400) (hp : parseHM time_str = some (h, m))
    (hh : h ≤ 23) (hm : m ≤ 59) (hlead : 10 ≤ 60 * h + m) :
    schedule_task now chat_id time_str task =
      some (chat_id, task, scheduleDelay now h m) ∧
    ((60 * h + m - 10) * 60 < now →
      now + scheduleDelay now h m = (60 * h + m - 10) * 60 + 86400) ∧
    (now ≤ (60 * h + m - 10) * 60 →
      now + scheduleDelay now h m = (60 * h + m - 10) * 60) ∧
    delayed_send_reminder chat_id task =
      (chat_id, "⏰ Через 10 минут: " ++ task) := by
  refine ⟨?_, ?_, ?_, rfl⟩
  · unfold schedule_task
    rw [hp]
  · intro hlt
    simp only [scheduleDelay]
    split <;> omega
  · intro hge
    simp only [scheduleDelay]
    split <;> omega

/-- C3 witness: target 8:00 at midnight fires at second 28200 of today
(07:50). -/
theorem c3_reminder_fire_time_witness :
    schedule_task 0 "42" "8:00" "Math" = some ("42", "Math", 28200) ∧
    0 + scheduleDelay 0 8 0 = (60 * 8 + 0 - 10) * 60 := by
  have h := c3_reminder_fire_time 0 8 0 "42" "8:00" "Math" (by decide) (by decide)
    (by decide) (by decide) (by decide)
  exact ⟨h.1, h.2.2.1 (by decide)⟩

/-- C4 (confirmed; the absent `/start` handler is modelled from the
spec as `start_command`): a chat with at most one binding in the store
has exactly one binding after `/start` and after any handled message —
in every branch of `handle_message`, including the malformed-schedule
early return (which requires the record to pre-exist, as a fresh record
starts in mode `none`), the persisted store binds the chat exactly
once. -/
theorem c4_unique_record (gen : String → Option String) (now : Nat)
    (store : Store) (chat_id text : String)
    (hwf : keyCount store chat_id ≤ 1) :
    keyCount (start_command store chat_id) chat_id = 1 ∧
    keyCount (handle_message gen now store chat_id text).store chat_id = 1 := by
  rcases hget : storeGet store chat_id with _ | r
  · have h0 : keyCount store chat_id = 0 :=
      keyCount_of_storeGet_none store chat_id hget
    constructor
    · unfold start_command
      simp [hget, keyCount_storeSet, h0]
    · unfold handle_message
      simp only [hget, Option.isSome_none, Bool.false_eq_true, if_false,
        storeGet_storeSet_self, Option.getD_some]
      simp [newRecord, keyCount_storeSet, h0]
  · have h1 : keyCount store chat_id = 1 :=
      Nat.le_antisymm hwf (keyCount_of_storeGet_some store chat_id r hget)
    constructor
    · unfold start_command
      simp [hget, h1]
    · unfold handle_message
      simp only [hget, Option.isSome_some, if_true, Option.getD_some]
      by_cases hp : r.mode = some "plan"
      · simp [hp, keyCount_storeSet, h1]
      · simp only [if_neg hp]
        by_cases hs : r.mode = some "schedule"
        · simp only [hs, if_true]
          rcases hpl : processLines now chat_id (pySplitNl (pyStrip text)) [] []
            with ⟨tasks, timers⟩ | ⟨line, timers⟩
          · simp [hpl, keyCount_storeSet, h1]
          · simp [hpl, h1]
        · simp only [if_neg hs]
          by_cases hr2 : r.mode = some "reflect"
          · simp [hr2, keyCount_storeSet, h1]
          · simp [if_neg hr2, h1]

/-- C4 witness: a fresh chat is bound exactly once after `/start` and
after its first message. -/
theorem c4_unique_record_witness :
    keyCount (start_command [] "42") "42" = 1 ∧
    keyCount (handle_message genNone 0 [] "42" "hello").store "42" = 1 :=
  c4_unique_record genNone 0 [] "42" "hello" (by decide)

/-- C5 (confirmed): any text handled in `plan` mode moves the chat to
`schedule` mode for every generator oracle — whether the Gemini call
returns text or raises (in which case the fallback string is
substituted), the branch still sets `mode = "schedule"`. -/
theorem c5_plan_to_schedule (gen : String → Option String) (now : Nat)
    (store : Store) (chat_id text : String) (r : ChatRecord)
    (hget : storeGet store chat_id = some r)
    (hmode : r.mode = some "plan") :
    (storeGet (handle_message gen now store chat_id text).store chat_id).map
      ChatRecord.mode = some (some "schedule") := by
  unfold handle_message
  simp only [hget, Option.isSome_some, if_true, Option.getD_some, hmode]
  simp [storeGet_storeSet_self]

/-- C5 witness: both a failing and a succeeding oracle land in
`schedule` mode. -/
theorem c5_plan_to_schedule_witness :
    (storeGet (handle_message genNone 0 [("42", ⟨[], some "plan", []⟩)] "42"
        "Plan.").store "42").map ChatRecord.mode = some (some "schedule") ∧
    (storeGet (handle_message (fun _ => some "advice") 0
        [("42", ⟨[], some "plan", []⟩)] "42"
        "Plan.").store "42").map ChatRecord.mode = some (some "schedule") :=
  ⟨c5_plan_to_schedule genNone 0 [("42", ⟨[], some "plan", []⟩)] "42" "Plan."
      ⟨[], some "plan", []⟩ (by decide) rfl,
   c5_plan_to_schedule (fun _ => some "advice") 0
      [("42", ⟨[], some "plan", []⟩)] "42" "Plan."
      ⟨[], some "plan", []⟩ (by decide) rfl⟩

/-- C6 counterexample: the diary entry appended in `plan` mode is the
dict `{"type": "планы", "text": ...}` — its tag is the literal string
`"планы"`, not `"plan"` as the claim states (and `reflect` mode writes
`"рефлексия"`, not `"reflection"`). -/
theorem c6_counterexample :
    (storeGet (handle_message genNone 0 [("42", ⟨[], some "plan", []⟩)] "42"
        "Finish math homework, go for a run.").store "42").map
      ChatRecord.diary =
      some [⟨"планы", "Finish math homework, go for a run."⟩] ∧
    (⟨"планы", "Finish math homework, go for a run."⟩ : DiaryEntry).type ≠
      "plan" := by
  decide

/-- C6 (amended): every diary entry appended by handling a message is a
record of shape `{type, text}` whose tag is `"планы"` for text received
in `plan` mode and `"рефлексия"` for text received in `reflect` mode
(the code's literal tags, which the spec's `kind: "plan"|"reflection"`
names), with `text` the inbound message verbatim; in every branch the
old diary is a prefix of the new one, so the diary is append-only. -/
theorem c6_diary_append (gen : String → Option String) (now : Nat)
    (store : Store) (chat_id text : String) (r : ChatRecord)
    (hget : storeGet store chat_id = some r) :
    ∃ r2 extra,
      storeGet (handle_message gen now store chat_id text).store chat_id =
        some r2 ∧
      r2.diary = r.diary ++ extra ∧
      (r.mode = some "plan" → extra = [⟨"планы", text⟩]) ∧
      (r.mode = some "reflect" → extra = [⟨"рефлексия", text⟩]) ∧
      (r.mode ≠ some "plan" → r.mode ≠ some "reflect" → extra = []) := by
  unfold handle_message
  simp only [hget, Option.isSome_some, if_true, Option.getD_some]
  by_cases hp : r.mode = some "plan"
  · refine ⟨⟨r.diary ++ [⟨"планы", text⟩], some "schedule", r.tasks⟩,
      [⟨"планы", text⟩], ?_, ?_, ?_, ?_, ?_⟩ <;>
      simp [hp, storeGet_storeSet_self]
  · by_cases hs : r.mode = some "schedule"
    · simp only [if_neg hp, hs, if_true]
      rcases hpl : processLines now chat_id (pySplitNl (pyStrip text)) [] []
        with ⟨tasks, timers⟩ | ⟨line, timers⟩
      · refine ⟨⟨r.diary, none, tasks⟩, [], ?_, ?_, ?_, ?_, ?_⟩ <;>
          simp [hp, hs, hpl, storeGet_storeSet_self]
      · refine ⟨r, [], ?_, ?_, ?_, ?_, ?_⟩ <;> simp [hp, hs, hpl, hget]
    · by_cases hr2 : r.mode = some "reflect"
      · refine ⟨⟨r.diary ++ [⟨"рефлексия", text⟩], none, r.tasks⟩,
          [⟨"рефлексия", text⟩], ?_, ?_, ?_, ?_, ?_⟩ <;>
          simp [hp, hs, hr2, storeGet_storeSet_self]
      · refine ⟨r, [], ?_, ?_, ?_, ?_, ?_⟩ <;> simp [hp, hs, hr2, hget]

/-- C6 witness: a reflect-mode message appends its reflection entry. -/
theorem c6_diary_append_witness :
    ∃ r2 extra,
      storeGet (handle_message genNone 0 [("42", ⟨[], some "reflect", []⟩)]
        "42" "Good day.").store "42" = some r2 ∧
      r2.diary = ([] : List DiaryEntry) ++ extra ∧
      ((⟨[], some "reflect", []⟩ : ChatRecord).mode = some "plan" →
        extra = [⟨"планы", "Good day."⟩]) ∧
      ((⟨[], some "reflect", []⟩ : ChatRecord).mode = some "reflect" →
        extra = [⟨"рефлексия", "Good day."⟩]) ∧
      ((⟨[], some "reflect", []⟩ : ChatRecord).mode ≠ some "plan" →
        (⟨[], some "reflect", []⟩ : ChatRecord).mode ≠ some "reflect" →
        extra = []) :=
  c6_diary_append genNone 0 [("42", ⟨[], some "reflect", []⟩)] "42" "Good day."
    ⟨[], some "reflect", []⟩ (by decide)

/-- C10 (confirmed): when the stored record's mode is `none` or any
value other than `plan`, `schedule`, `reflect`, the free-chat branch
only generates and sends a reply: the persisted store is exactly the
loaded one, no timer is registered, and the chat's record (mode, diary,
tasks) is unchanged. -/
theorem c10_free_chat_frame (gen : String → Option String) (now : Nat)
    (store : Store) (chat_id text : String) (r : ChatRecord)
    (hget : storeGet store chat_id = some r)
    (hp : r.mode ≠ some "plan") (hs : r.mode ≠ some "schedule")
    (hr : r.mode ≠ some "reflect") :
    (handle_message gen now store chat_id text).store = store ∧
    storeGet (handle_message gen now store chat_id text).store chat_id =
      some r ∧
    (handle_message gen now store chat_id text).timers = [] := by
  unfold handle_message
  simp [hget, hp, hs, hr]

/-- C10 witness: a chat resting in mode `none` is untouched by a
free-chat message. -/
theorem c10_free_chat_frame_witness :
    (handle_message genNone 0 [("42", ⟨[⟨"планы", "old"⟩], none, [("7:00", "Old")]⟩)]
        "42" "hello").store =
      [("42", ⟨[⟨"планы", "old"⟩], none, [("7:00", "Old")]⟩)] ∧
    storeGet (handle_message genNone 0
        [("42", ⟨[⟨"планы", "old"⟩], none, [("7:00", "Old")]⟩)] "42"
        "hello").store "42" =
      some ⟨[⟨"планы", "old"⟩], none, [("7:00", "Old")]⟩ ∧
    (handle_message genNone 0
        [("42", ⟨[⟨"планы", "old"⟩], none, [("7:00", "Old")]⟩)] "42"
        "hello").timers = [] :=
  c10_free_chat_frame genNone 0
    [("42", ⟨[⟨"планы", "old"⟩], none, [("7:00", "Old")]⟩)] "42" "hello"
    ⟨[⟨"планы", "old"⟩], none, [("7:00", "Old")]⟩ (by decide)
    (by decide) (by decide) (by decide)

/-- C1 witness: the spec's own example input, with times stored
verbatim. -/
theorem c1_schedule_success_witness :
    storeGet (handle_message genNone 0 exampleStore "42"
        "8:00 Math\n9:30 Walk").store "42" =
      some ⟨[], none, [("8:00", "Math"), ("9:30", "Walk")]⟩ ∧
    (handle_message genNone 0 exampleStore "42" "8:00 Math\n9:30 Walk").timers =
      [("42", "Math", scheduleDelay 0 8 0), ("42", "Walk", scheduleDelay 0 9 30)] :=
  have h := c1_schedule_success genNone 0 exampleStore "42" "8:00 Math\n9:30 Walk"
    ⟨[], some "schedule", [("7:00", "Old")]⟩
    [("8:00", "Math", 8, 0), ("9:30", "Walk", 9, 30)]
    (by decide) rfl (by decide)
  ⟨h.1, h.2.1⟩

/-- C2 witness: the spec's own example `"8:00 Math\nbadline"`. -/
theorem c2_schedule_malformed_witness :
    (handle_message genNone 0 exampleStore "42" "8:00 Math\nbadline").store =
      exampleStore ∧
    (handle_message genNone 0 exampleStore "42" "8:00 Math\nbadline").sent =
      [("42", "⚠️ Неверный формат строки: '" ++ "badline" ++
        "'. Используй формат 'HH:MM Задание'")] ∧
    (handle_message genNone 0 exampleStore "42" "8:00 Math\nbadline").timers =
      [("42", "Math", scheduleDelay 0 8 0)] :=
  c2_schedule_malformed genNone 0 exampleStore "42" "8:00 Math\nbadline"
    ⟨[], some "schedule", [("7:00", "Old")]⟩ ["8:00 Math"] "badline" []
    [("8:00", "Math", 8, 0)] (by decide) rfl (by decide) (by decide) (by decide)

/-- C7 counterexample: the exact mapping passed to `save_data` at
`bot.py:147` right after the schedule submission `"8:00 Math"` holds the
task pair as a Python tuple (`bot.py:127`); `json.dump` writes the tuple
as a JSON array and `json.load` reads it back as a list, so
`load(save(x))` differs from `x` (the left side is tuple-free, the
right is not). -/
theorem c7_counterexample :
    load_data (save_data (storeToPy
      (handle_message genNone 0 exampleStore "42" "8:00 Math").store)) ≠
    storeToPy (handle_message genNone 0 exampleStore "42" "8:00 Math").store := by
  intro h
  have h2 := congrArg tupleFree h
  rw [show tupleFree (load_data (save_data (storeToPy
      (handle_message genNone 0 exampleStore "42" "8:00 Math").store))) = true
    from by decide] at h2
  rw [show tupleFree (storeToPy
      (handle_message genNone 0 exampleStore "42" "8:00 Math").store) = false
    from by decide] at h2
  exact Bool.noConfusion h2

/-- C7 (amended): `load(save(x)) = x` holds exactly for the mappings
without Python tuples — in particular for every value `load_data`
itself can produce, since JSON arrays always load as lists; the mapping
saved immediately after a schedule submission holds its task pairs as
tuples and comes back with lists instead (see the counterexample), so
the round trip is exact only up to that tuple-to-list coercion. -/
theorem c7_roundtrip (x : PyVal) (hx : tupleFree x = true) :
    load_data (save_data x) = x :=
  load_save_tupleFree x hx

/-- C7 witness: the same store in its reloaded (tuple-free) form
round-trips exactly. -/
theorem c7_roundtrip_witness :
    tupleFree (PyVal.pydict [("42", PyVal.pydict
      [("diary", PyVal.pylist []), ("mode", PyVal.pynone),
       ("tasks", PyVal.pylist
          [PyVal.pylist [PyVal.pystr "8:00", PyVal.pystr "Math"]])])]) = true ∧
    load_data (save_data (PyVal.pydict [("42", PyVal.pydict
      [("diary", PyVal.pylist []), ("mode", PyVal.pynone),
       ("tasks", PyVal.pylist
          [PyVal.pylist [PyVal.pystr "8:00", PyVal.pystr "Math"]])])])) =
      PyVal.pydict [("42", PyVal.pydict
        [("diary", PyVal.pylist []), ("mode", PyVal.pynone),
         ("tasks", PyVal.pylist
            [PyVal.pylist [PyVal.pystr "8:00", PyVal.pystr "Math"]])])] :=
  ⟨by decide,
   c7_roundtrip (PyVal.pydict [("42", PyVal.pydict
      [("diary", PyVal.pylist []), ("mode", PyVal.pynone),
       ("tasks", PyVal.pylist
          [PyVal.pylist [PyVal.pystr "8:00", PyVal.pystr "Math"]])])])
     (by decide)⟩

/-- Map of `String.mk` commutes with concatenation-by-foldr. -/
theorem foldr_append_mk (ls : List (List Char)) :
    (ls.map String.mk).foldr (fun a b => a ++ b) "" =
      String.mk (ls.foldr (fun a b => a ++ b) []) := by
  induction ls with
  | nil => rfl
  | cons a ls ih =>
    simp only [List.map_cons, List.foldr_cons, ih]
    rfl

/-- C8 (confirmed): `send_long_message` performs a sequence of sends
whose in-order concatenation is the original text, each send at most
4096 characters long; a text longer than 4096 characters yields at
least two sends. -/
theorem c8_chunking (chat_id text : String) :
    ((send_long_message chat_id text).map Prod.snd).foldr
        (fun a b => a ++ b) "" = text ∧
    (∀ p ∈ send_long_message chat_id text, p.2.length ≤ 4096) ∧
    (4096 < text.length → 2 ≤ (send_long_message chat_id text).length) := by
  refine ⟨?_, ?_, ?_⟩
  · have h1 : (send_long_message chat_id text).map Prod.snd =
        (chunksList text.toList).map String.mk := by
      simp [send_long_message]
    rw [h1, foldr_append_mk, chunksList_foldr]
    rfl
  · intro p hp
    simp only [send_long_message, List.mem_map] at hp
    obtain ⟨c, hc, rfl⟩ := hp
    exact chunksList_le text.toList c hc
  · intro hlen
    have h2 := chunksList_two text.toList hlen
    simpa [send_long_message] using h2

/-- C8 witness: a 4097-character text needs two sends. -/
theorem c8_chunking_witness :
    4096 < (String.mk (List.replicate 4097 'a')).length ∧
    2 ≤ (send_long_message "42" (String.mk (List.replicate 4097 'a'))).length := by
  have h : 4096 < (String.mk (List.replicate 4097 'a')).length := by
    show 4096 < (List.replicate 4097 'a').length
    rw [List.length_replicate]
    omega
  exact ⟨h, (c8_chunking "42" (String.mk (List.replicate 4097 'a'))).2.2 h⟩

/-- C9 counterexample: when the Gemini call returns `" hi "`, the
wrapper returns `"hi"` — `response.text.strip()` at `bot.py:45` — and
not the generated text itself as the claim states. -/
theorem c9_counterexample :
    generate_message (fun _ => some " hi ") "p" = "hi" ∧
    generate_message (fun _ => some " hi ") "p" ≠ " hi " := by
  decide

/-- C9 (amended): the wrapper is a total function of the oracle — it
never raises to its caller; if the underlying generation call fails for
any reason it returns the fixed fallback string, otherwise it returns
the generated text stripped of leading and trailing whitespace. -/
theorem c9_generate_fallback (gen : String → Option String) (prompt : String) :
    (gen prompt = none → generate_message gen prompt = genFallback) ∧
    (∀ t, gen prompt = some t → generate_message gen prompt = pyStrip t) := by
  constructor
  · intro h
    simp [generate_message, h]
  · intro t h
    simp [generate_message, h]

/-- C9 witness: both the failure and the success cases, concretely. -/
theorem c9_generate_fallback_witness :
    generate_message (fun _ => none) "p" = genFallback ∧
    generate_message (fun _ => some " hi ") "p" = pyStrip " hi " :=
  ⟨(c9_generate_fallback (fun _ => none) "p").1 rfl,
   (c9_generate_fallback (fun _ => some " hi ") "p").2 " hi " rfl⟩
